import Mathlib

/-!
Verification development for the co-assist repository.

Part 1 embeds the API facade (`src/assistance/unified_api.py`): the
`/gmail/send` handler (`gmail_send`) and the `/api/search` handler
(`search_documents`, line-identical in `src/assistance/pdf/retriever/app.py`).
Python exceptions raised inside a handler's `try` block are modelled by the
`PyExc` type; FastAPI's `HTTPException` is a subclass of `Exception`, so a
blanket `except Exception` catches it, which the embedding mirrors.

Part 2 embeds the asynchronous Gmail automation
(`src/assistance/gmail_automation/main_async_fixed.py`) as an oracle-driven
trace semantics: a behaviour `Beh : Nat → Bool` decides, for each successive
page interaction (indexed by an oracle cursor), whether that interaction
succeeds, and every function additionally returns the list of page-interaction
events it issued, in order.
-/

namespace CoAssist

/-- The structured email draft: the dict produced by the LLM translator and
consumed by the send pipeline (`{to, cc, bcc, subject, body}`). -/
structure EmailData where
  «to» : List String
  cc : List String
  bcc : List String
  subject : String
  body : String
deriving Repr, DecidableEq

/-- The request body of `POST /gmail/send` (`GmailSendRequest` in
`unified_api.py`); the optional list fields default to `[]`, so `None` and the
empty list coincide in the model, matching Python truthiness at the use sites. -/
structure GmailSendRequest where
  task : String
  «to» : List String
  cc : List String
  bcc : List String
  tone : Option String
deriving Repr, DecidableEq

/-- An HTTP outcome of a handler: a successful JSON payload, or an
`HTTPException(status_code, detail)` surfaced to the client. -/
inductive ApiResult (α : Type) where
  | ok : α → ApiResult α
  | httpError : Nat → String → ApiResult α
deriving Repr, DecidableEq

/-- The success payload of `POST /gmail/send`. -/
structure GmailSendResponse where
  success : Bool
  message : String
  email_preview : EmailData
deriving Repr, DecidableEq

/-- A Python exception as observed by the handler's `except` clauses:
either a `fastapi.HTTPException` (which carries a status code and a detail,
and whose `str` is `"{status_code}: {detail}"` rendered by starlette), or any
other exception, identified by its `str`. -/
inductive PyExc where
  | http : Nat → String → PyExc
  | other : String → PyExc
deriving Repr, DecidableEq

/-- `str(e)` for a caught exception, as used in the `f"...{str(e)}"` details. -/
def pyExcStr : PyExc → String
  | PyExc.http s d => toString s ++ ": " ++ d
  | PyExc.other m => m

/-- Modelled from the spec: `parse_email_json`, imported by `unified_api.py`
from `gmail_automation/main.py`, a file that is not present under `src/`.
Per the spec the facade "overlays caller-supplied `to`/`cc`/`bcc` onto the
Translator's output ... validates that a non-empty `to` exists" — the
emptiness check is performed by `gmail_send` itself right after this call, so
the parse step is modelled as the identity on the structured draft. -/
def parse_email_json (d : EmailData) : EmailData := d

/-- The recipient merge of `gmail_send` (`unified_api.py` lines 255-260):
each caller-supplied list overrides the translator's value when non-empty
(Python truthiness of `request.to` etc.). -/
def merge_recipients (instr : EmailData) (req : GmailSendRequest) : EmailData :=
  { instr with
    «to» := if req.«to» ≠ [] then req.«to» else instr.«to»,
    cc := if req.cc ≠ [] then req.cc else instr.cc,
    bcc := if req.bcc ≠ [] then req.bcc else instr.bcc }

/-- The body of the outer `try` of `gmail_send` (`unified_api.py` lines
250-283). `parse_task` is the outcome of the LLM translator call
(`gmail_agent.parse_task`), `pipeline` the outcome of the Playwright
automation (`_send_email_async`). The second component records whether the
pipeline (browser automation) was invoked. A pipeline failure is re-raised as
`HTTPException(500, ...)`; the empty-recipient check raises a plain
`ValueError("No recipient found after parsing/merge.")`. -/
def gmail_send_try (parse_task : Except String EmailData)
    (pipeline : EmailData → Except String Unit)
    (req : GmailSendRequest) : Except PyExc GmailSendResponse × Bool :=
  match parse_task with
  | Except.error e => (Except.error (PyExc.other e), false)
  | Except.ok instr =>
    let email_data := parse_email_json (merge_recipients instr req)
    if email_data.«to» = [] then
      (Except.error (PyExc.other "No recipient found after parsing/merge."), false)
    else
      match pipeline email_data with
      | Except.error e =>
        (Except.error (PyExc.http 500 ("Gmail send failed: " ++ e)), true)
      | Except.ok _ =>
        (Except.ok ⟨true, "✅ Email sent successfully", email_data⟩, true)

/-- The `POST /gmail/send` handler (`unified_api.py` lines 236-289).
`gmailReady` is `gmail_agent is not None and gmail_env is not None`,
`gmailInitError` the recorded startup error. The handler's trailing clauses
`except HTTPException: raise` / `except Exception: raise HTTPException(500, ...)`
pass `HTTPException`s through unchanged and wrap everything else as a 500. -/
def gmail_send (gmailReady : Bool) (gmailInitError : Option String)
    (parse_task : Except String EmailData)
    (pipeline : EmailData → Except String Unit)
    (req : GmailSendRequest) : ApiResult GmailSendResponse × Bool :=
  if gmailReady = false then
    (ApiResult.httpError 503
      ("Gmail service not available. " ++ gmailInitError.getD "Check configuration."), false)
  else
    match gmail_send_try parse_task pipeline req with
    | (Except.ok r, b) => (ApiResult.ok r, b)
    | (Except.error (PyExc.http s d), b) => (ApiResult.httpError s d, b)
    | (Except.error (PyExc.other m), b) =>
      (ApiResult.httpError 500 ("Gmail send failed: " ++ m), b)

/-- The success payload of `POST /api/search`. -/
structure SearchResponse where
  response : String
  context : String
  chunks_found : Nat
deriving Repr, DecidableEq

/-- The body of the `try` block of the `search_documents` handler
(`unified_api.py` lines 348-375, identically `pdf/retriever/app.py` lines
169-196). An empty `question` raises `HTTPException(400, "Question is
required")` — inside the `try`. `simsearch` is the outcome of
`qdrant.similarity_search(question, k=5)` (the page contents of the chunks
found), `tok` the outcome of the LLM call `token(question, model, context)`;
backend failures are non-HTTP exceptions. -/
def search_documents_try (simsearch : String → Except String (List String))
    (tok : String → String → Except String String)
    (question : String) : Except PyExc SearchResponse :=
  if question = "" then
    Except.error (PyExc.http 400 "Question is required")
  else
    match simsearch question with
    | Except.error e => Except.error (PyExc.other e)
    | Except.ok chunks =>
      let context := String.intercalate "\n" chunks
      match tok question context with
      | Except.error e => Except.error (PyExc.other e)
      | Except.ok response => Except.ok ⟨response, context, chunks.length⟩

/-- The `POST /api/search` handler. Its only `except` clause is
`except Exception as e: raise HTTPException(status_code=500, detail=f"Search
error: {str(e)}")` — there is no `except HTTPException: raise` guard, so the
400 raised for an empty question is itself caught and re-wrapped as a 500. -/
def search_documents (simsearch : String → Except String (List String))
    (tok : String → String → Except String String)
    (question : String) : ApiResult SearchResponse :=
  match search_documents_try simsearch tok question with
  | Except.ok r => ApiResult.ok r
  | Except.error e => ApiResult.httpError 500 ("Search error: " ++ pyExcStr e)

/-!
Part 2: the asynchronous Gmail automation of
`src/assistance/gmail_automation/main_async_fixed.py`.

Every Playwright interaction is a suspension point that can fail with an
exception. The embedding makes each interaction's outcome explicit through a
behaviour oracle `Beh : Nat → Bool`: the `k`-th fallible interaction of a run
succeeds iff `beh k` is `true` (for the count queries of the dialog fallback,
the bit is instead the query's boolean result). Each function returns
`(outcome, next cursor, events issued)`; element handles are identified by the
selector that resolved to them. -/

/-- One observable page interaction. `locate` records entry into
`wait_for_element` with its `description` argument and `snapshotCall` entry
into `save_screenshot` with its `label` argument; neither consults the oracle.
All others are Playwright calls. -/
inductive Event where
  | locate : String → Event
  | waitFor : String → Nat → Event
  | dialogQuery : Event
  | textboxQuery : Event
  | click : String → Event
  | clear : String → Event
  | fill : String → String → Event
  | pressEnter : Event
  | waitSelector : String → Nat → Event
  | sleep : Nat → Event
  | snapshotCall : String → Event
  | mkdirs : Event
  | screenshot : String → Event
deriving Repr, DecidableEq

/-- The behaviour oracle: whether the interaction at a given oracle cursor
succeeds (resp. the boolean result of a count query). -/
def Beh : Type := Nat → Bool

/-- One fallible Playwright call: consumes one oracle bit, issues one event. -/
def opStep (beh : Beh) (n : Nat) (e : Event) (errMsg : String) :
    Except String Unit × Nat × List Event :=
  (if beh n then Except.ok () else Except.error errMsg, n + 1, [e])

/-- Sequencing of two oracle-driven computations: on failure of the first the
second never runs (the exception propagates); events concatenate. -/
def andThen {α β : Type} (r : Except String α × Nat × List Event)
    (f : α → Nat → Except String β × Nat × List Event) :
    Except String β × Nat × List Event :=
  match r with
  | (Except.error e, n, evs) => (Except.error e, n, evs)
  | (Except.ok a, n, evs) =>
    match f a n with
    | (v, n2, evs2) => (v, n2, evs ++ evs2)

/-- The candidate loop of `wait_for_element` (lines 56-62): for each selector
in order, `page.locator(sel).first.wait_for(state="visible", timeout=budget)`
inside a bare `try`/`except: continue`; the first selector whose wait
succeeds is returned as the element. -/
def tryCandidates (beh : Beh) (budget : Nat) :
    List String → Nat → Option String × Nat × List Event
  | [], n => (none, n, [])
  | s :: rest, n =>
    if beh n then (some s, n + 1, [Event.waitFor s budget])
    else
      match tryCandidates beh budget rest (n + 1) with
      | (r, n2, evs) => (r, n2, Event.waitFor s budget :: evs)

/-- `wait_for_element(page, selector, timeout, description)` (lines 50-74).
A single-string `selector` is wrapped into a one-element list by the callers'
`[selector] if isinstance(selector, str) else selector`, so the embedding
takes the list. The per-candidate budget is `timeout // len(selectors)`.
If every candidate fails, the dialog fallback queries
`page.locator("div[role=\x27dialog\x27]").count() > 0` and then, inside the
dialog, a text-editable element count; if both are positive the first such
textbox is returned, otherwise `TimeoutError(f"Could not find {description}")`
is raised (the outer `except` only logs and re-raises). -/
def wait_for_element (beh : Beh) (selectors : List String) (timeout : Nat)
    (description : String) (n : Nat) : Except String String × Nat × List Event :=
  let budget := timeout / selectors.length
  match tryCandidates beh budget selectors n with
  | (some el, n2, evs) => (Except.ok el, n2, Event.locate description :: evs)
  | (none, n2, evs) =>
    if beh n2 then
      if beh (n2 + 1) then
        (Except.ok "dialog_textbox", n2 + 2,
          Event.locate description :: evs ++ [Event.dialogQuery, Event.textboxQuery])
      else
        (Except.error ("Could not find " ++ description), n2 + 2,
          Event.locate description :: evs ++ [Event.dialogQuery, Event.textboxQuery])
    else
      (Except.error ("Could not find " ++ description), n2 + 1,
        Event.locate description :: evs ++ [Event.dialogQuery])

/-- The selector sets of `fill_field_with_retry` (lines 80-97), keyed by
`field_type`, with their timeouts and descriptions. A `field_type` outside
the three known ones leaves the Python local `field` unbound, so the attempt
raises `NameError` before any page interaction. -/
def fieldSelectors : String → Option (List String × Nat × String)
  | "to" => some (["input[aria-label=\x27To\x27]", "input[name=\x27to\x27]",
      "div[aria-label=\x27To\x27] input", "input[email]"], 5000, "To field")
  | "subject" => some (["input[name=\x27subjectbox\x27]",
      "input[aria-label=\x27Subject\x27]"], 5000, "Subject field")
  | "body" => some (["div[aria-label=\x27Message Body\x27]",
      "div[contenteditable=\x27true\x27]", "div[role=\x27textbox\x27]"], 5000,
      "Message body")
  | _ => none

/-- One attempt of `fill_field_with_retry`'s loop body (lines 79-102):
locate the field, then `field.click()`, `field.clear()`, `field.fill(value)`,
and return `True`. -/
def fillAttempt (beh : Beh) (field_type value : String) (n : Nat) :
    Except String Bool × Nat × List Event :=
  match fieldSelectors field_type with
  | none => (Except.error "NameError: field is not defined", n, [])
  | some (sels, t, desc) =>
    andThen (wait_for_element beh sels t desc n) (fun field n1 =>
    andThen (opStep beh n1 (Event.click field) "click failed") (fun _ n2 =>
    andThen (opStep beh n2 (Event.clear field) "clear failed") (fun _ n3 =>
    andThen (opStep beh n3 (Event.fill field value) "fill failed") (fun _ n4 =>
    (Except.ok true, n4, [])))))

/-- The retry loop of `fill_field_with_retry` (lines 78-110), indexed by the
number of remaining attempts (so `remaining = 1` is the final attempt, i.e.
Python's `attempt == max_retries - 1`, which re-raises the caught error);
earlier failures sleep 1 second and retry. Exhausting the range without
entering it (only possible for `max_retries = 0`) falls through to
`return False`. -/
def fillRetryGo (beh : Beh) (field_type value : String) :
    Nat → Nat → Except String Bool × Nat × List Event
  | 0, n => (Except.ok false, n, [])
  | r + 1, n =>
    match fillAttempt beh field_type value n with
    | (Except.ok v, n2, evs) => (Except.ok v, n2, evs)
    | (Except.error e, n2, evs) =>
      if r = 0 then (Except.error e, n2, evs)
      else
        match fillRetryGo beh field_type value r n2 with
        | (res, n3, evs2) => (res, n3, evs ++ Event.sleep 1 :: evs2)

/-- `fill_field_with_retry(page, field_type, value, max_retries=3)`
(lines 76-110). -/
def fill_field_with_retry (beh : Beh) (field_type value : String)
    (max_retries n : Nat) : Except String Bool × Nat × List Event :=
  fillRetryGo beh field_type value max_retries n

/-- `save_screenshot(page, label)` (lines 18-27), with `ts` standing for
`datetime.now().strftime("%Y%m%d_%H%M%S")`. The body runs `os.makedirs` and
`page.screenshot` inside a `try`; on success the written path is returned,
and any exception is caught, logged, and turned into `None` — the function
never propagates an exception. -/
def save_screenshot (beh : Beh) (ts label : String) (n : Nat) :
    Option String × Nat × List Event :=
  if beh n then
    if beh (n + 1) then
      (some ("screens/" ++ ts ++ "_" ++ label ++ ".png"), n + 2,
        [Event.snapshotCall label, Event.mkdirs,
         Event.screenshot ("screens/" ++ ts ++ "_" ++ label ++ ".png")])
    else
      (none, n + 2,
        [Event.snapshotCall label, Event.mkdirs,
         Event.screenshot ("screens/" ++ ts ++ "_" ++ label ++ ".png")])
  else (none, n + 1, [Event.snapshotCall label, Event.mkdirs])

/-- The compose-button selector `div[gh=\x27cm\x27]` (line 120). -/
def composeSel : String := "div[gh=\x27cm\x27]"

/-- The compose-dialog selector (line 124). -/
def dialogSel : String := "div[role=\x27dialog\x27]"

/-- The `To` field candidates of `send_email` (lines 130-134). -/
def toSels : List String :=
  ["input[aria-label=\x27To\x27]", "input[name=\x27to\x27]",
   "div[aria-label=\x27To\x27] input"]

/-- The `Cc` field candidates (lines 143-146). -/
def ccSels : List String :=
  ["input[aria-label=\x27Cc\x27]", "input[name=\x27cc\x27]"]

/-- The `Bcc` field candidates (lines 155-158). -/
def bccSels : List String :=
  ["input[aria-label=\x27Bcc\x27]", "input[name=\x27bcc\x27]"]

/-- The message-body candidates (lines 167-171). -/
def bodySels : List String :=
  ["div[aria-label=\x27Message Body\x27]", "div[contenteditable=\x27true\x27]",
   "div[role=\x27textbox\x27]"]

/-- The send-button candidates (lines 176-181). -/
def sendSels : List String :=
  ["div[aria-label=\"Send ‪(Ctrl-Enter)‬\"]", "div[data-tooltip=\"Send\"]",
   "button[aria-label=\"Send\"]", "div[role=\"button\"]:has-text(\"Send\")"]

/-- The confirmation marker selector (line 185). -/
def confirmSel : String := "span.bAq"

/-- Filling one recipient address (the bodies of the three loops at lines
129-161): re-locate the field, `field.click()`, `field.fill(email)`, then
`page.keyboard.press("Enter")`. -/
def fillOneRecipient (beh : Beh) (sels : List String) (desc addr : String)
    (n : Nat) : Except String Unit × Nat × List Event :=
  andThen (wait_for_element beh sels 5000 desc n) (fun field n1 =>
  andThen (opStep beh n1 (Event.click field) "click failed") (fun _ n2 =>
  andThen (opStep beh n2 (Event.fill field addr) "fill failed") (fun _ n3 =>
  opStep beh n3 Event.pressEnter "press failed")))

/-- One of the recipient loops of `send_email`: each address of the list in
order (an absent or empty `cc`/`bcc` skips its loop, which coincides with
iterating the empty list). -/
def fillRecipientList (beh : Beh) (sels : List String) (desc : String) :
    List String → Nat → Except String Unit × Nat × List Event
  | [], n => (Except.ok (), n, [])
  | a :: rest, n =>
    andThen (fillOneRecipient beh sels desc a n) (fun _ n2 =>
      fillRecipientList beh sels desc rest n2)

/-- The opening phase of one send attempt (lines 119-125): locate and click
the compose button, wait for the compose dialog, then pause one second for
stability (`asyncio.sleep(1)`, which issues no fallible page interaction). -/
def composePhase (beh : Beh) (n : Nat) : Except String Unit × Nat × List Event :=
  andThen (wait_for_element beh [composeSel] 10000 "compose button" n)
    (fun composeBtn n1 =>
  andThen (opStep beh n1 (Event.click composeBtn) "click failed") (fun _ n2 =>
  andThen (wait_for_element beh [dialogSel] 10000 "compose dialog" n2)
    (fun _ n3 => (Except.ok (), n3, [Event.sleep 1]))))

/-- The closing phase of one send attempt (lines 163-187): fill the subject
through `fill_field_with_retry`, locate and fill the body (click then fill),
locate and click the send button, and wait for the confirmation marker
`span.bAq` within 10000 ms. -/
def finishPhase (beh : Beh) (ed : EmailData) (n : Nat) :
    Except String Bool × Nat × List Event :=
  andThen (fill_field_with_retry beh "subject" ed.subject 3 n) (fun _ n8 =>
  andThen (wait_for_element beh bodySels 5000 "Message body" n8)
    (fun bodyField n9 =>
  andThen (opStep beh n9 (Event.click bodyField) "click failed") (fun _ n10 =>
  andThen (opStep beh n10 (Event.fill bodyField ed.body) "fill failed")
    (fun _ n11 =>
  andThen (wait_for_element beh sendSels 5000 "Send button" n11)
    (fun sendBtn n12 =>
  andThen (opStep beh n12 (Event.click sendBtn) "click failed") (fun _ n13 =>
  andThen (opStep beh n13 (Event.waitSelector confirmSel 10000)
      "Timeout waiting for span.bAq") (fun _ n14 =>
  (Except.ok true, n14, []))))))))

/-- One attempt of `send_email`'s loop body (lines 118-187): the compose
phase, then the `to` recipients, then the `cc` recipients, then the `bcc`
recipients (in that fixed order), then the finishing phase. -/
def sendAttempt (beh : Beh) (ed : EmailData) (n : Nat) :
    Except String Bool × Nat × List Event :=
  andThen (composePhase beh n) (fun _ n4 =>
  andThen (fillRecipientList beh toSels "To field" ed.«to» n4) (fun _ n5 =>
  andThen (fillRecipientList beh ccSels "Cc field" ed.cc n5) (fun _ n6 =>
  andThen (fillRecipientList beh bccSels "Bcc field" ed.bcc n6) (fun _ n7 =>
  finishPhase beh ed n7))))

/-- The outer retry loop of `send_email` (lines 116-198) with `m` the
configured `max_retries` (3 in the source) and the first argument the number
of remaining attempts: on the final attempt's failure (`attempt ==
max_retries - 1`, i.e. remaining = 1) a diagnostic screenshot labelled
`send_error_attempt_{attempt + 1}` is captured and the caught error is
re-raised unchanged (`raise`); earlier failures sleep 2 seconds and retry.
Exhausting the range (only possible for `m = 0`) falls off the loop, which in
Python returns `None`, modelled as `Except.ok false`. -/
def sendRetryGo (beh : Beh) (ts : String) (ed : EmailData) (m : Nat) :
    Nat → Nat → Except String Bool × Nat × List Event
  | 0, n => (Except.ok false, n, [])
  | r + 1, n =>
    match sendAttempt beh ed n with
    | (Except.ok v, n2, evs) => (Except.ok v, n2, evs)
    | (Except.error e, n2, evs) =>
      if r = 0 then
        match save_screenshot beh ts ("send_error_attempt_" ++ toString m) n2 with
        | (_, n3, evs2) => (Except.error e, n3, evs ++ evs2)
      else
        match sendRetryGo beh ts ed m r n2 with
        | (res, n3, evs2) => (res, n3, evs ++ Event.sleep 2 :: evs2)

/-- `send_email(page, email_data)` (lines 112-198): the attempt loop with
`max_retries = 3`. -/
def send_email (beh : Beh) (ts : String) (ed : EmailData) (n : Nat) :
    Except String Bool × Nat × List Event :=
  sendRetryGo beh ts ed 3 3 n

/-- Whether an event is the entry marker of `save_screenshot` — i.e. an
invocation of the diagnostic snapshot function. -/
def isSnapshotCall : Event → Bool
  | Event.snapshotCall _ => true
  | _ => false

/-- Whether an event is the entry marker of `wait_for_element` — i.e. the
start of one field-location operation. -/
def isLocate : Event → Bool
  | Event.locate _ => true
  | _ => false

/-- Whether an event is internal to `wait_for_element`'s search: a per-candidate
visibility wait or a dialog-fallback count query. -/
def isWaitEvent : Event → Bool
  | Event.waitFor _ _ => true
  | Event.dialogQuery => true
  | Event.textboxQuery => true
  | _ => false

/-- The trace segment produced by filling one recipient address: the field is
re-located (a `locate` marker followed by search events only), the resolved
element is clicked, filled with the address, and the entry is committed with
an Enter keypress — before anything else happens. -/
def recipientBlock (desc addr : String) (evs : List Event) : Prop :=
  ∃ w el, (∀ e ∈ w, isWaitEvent e = true)
    ∧ evs = Event.locate desc ::
        (w ++ [Event.click el, Event.fill el addr, Event.pressEnter])

/-- `k` failing attempts of `fill_field_with_retry`'s loop body starting at
oracle cursor `n`, followed by one successful attempt. -/
def failsThenSucceeds (beh : Beh) (field_type value : String) :
    Nat → Nat → Prop
  | n, 0 => ∃ b n2 t, fillAttempt beh field_type value n = (Except.ok b, n2, t)
  | n, k + 1 => ∃ e n2 t,
      fillAttempt beh field_type value n = (Except.error e, n2, t)
      ∧ failsThenSucceeds beh field_type value n2 k

/-- A behaviour under which every page interaction succeeds except the
confirmation-marker wait of each send attempt (for a one-recipient draft
these sit at oracle cursors 16, 33 and 50). -/
def behNoConfirm : Beh := fun m => !(m == 16 || m == 33 || m == 50)

/-- A concrete one-recipient draft. -/
def edOneRecipient : EmailData := ⟨["a@x"], [], [], "s", "b"⟩

/-!
Theorems about the API facade.
-/

/-- C1 (counterexample): a `POST /gmail/send` request whose merged draft has
an empty `to` list (translator returns no recipients, caller supplies none)
is answered with HTTP 500, which is not a 400-class (client-error) status:
the `ValueError` raised by the validation is caught by the handler's blanket
`except Exception` and re-wrapped as a server error. -/
theorem gmail_send_empty_to_counterexample :
    (gmail_send true none (Except.ok ⟨[], [], [], "subject", "body"⟩)
        (fun _ => Except.ok ()) ⟨"task", [], [], [], none⟩).1
      = ApiResult.httpError 500
          "Gmail send failed: No recipient found after parsing/merge."
    ∧ ¬ (400 ≤ 500 ∧ 500 < 500) :=
  ⟨rfl, by decide⟩

/-- C1 (amended): for every `POST /gmail/send` request whose merged draft has
an empty `to` list, the facade fails with the 500-class response
`Gmail send failed: No recipient found after parsing/merge.` (the
`ValueError` raised by the validation is wrapped by `except Exception`),
not a 400-class validation response. -/
theorem gmail_send_empty_to_is_500 (gmailInitError : Option String)
    (parse_task : Except String EmailData)
    (pipeline : EmailData → Except String Unit) (req : GmailSendRequest)
    (instr : EmailData) (hp : parse_task = Except.ok instr)
    (hto : (merge_recipients instr req).«to» = []) :
    (gmail_send true gmailInitError parse_task pipeline req).1
      = ApiResult.httpError 500
          "Gmail send failed: No recipient found after parsing/merge." := by
  subst hp
  simp [gmail_send, gmail_send_try, parse_email_json, hto]

/-- Witness for `gmail_send_empty_to_is_500` at a concrete request. -/
theorem gmail_send_empty_to_is_500_witness :
    (gmail_send true none (Except.ok ⟨[], [], [], "s", "b"⟩)
        (fun _ => Except.ok ()) ⟨"t", [], [], [], none⟩).1
      = ApiResult.httpError 500
          "Gmail send failed: No recipient found after parsing/merge." :=
  gmail_send_empty_to_is_500 none _ _ _ _ rfl rfl

/-- C2: for every `POST /api/search` request whose `question` is the empty
string, the handler raises `HTTPException(400, "Question is required")`
inside its `try` block, but the blanket `except Exception` catches it (it is
an `Exception` subclass) and responds 500 with detail
`Search error: 400: Question is required` — the claimed 400 status never
reaches the client, for any backend behaviour. -/
theorem search_documents_empty_question_bug
    (simsearch : String → Except String (List String))
    (tok : String → String → Except String String) :
    search_documents_try simsearch tok ""
      = Except.error (PyExc.http 400 "Question is required")
    ∧ search_documents simsearch tok ""
      = ApiResult.httpError 500 "Search error: 400: Question is required" :=
  ⟨rfl, rfl⟩

/-- C4: the final draft of `POST /gmail/send` takes each of `to`/`cc`/`bcc`
from the caller's request when that list is non-empty and from the
Translator's output otherwise, and a successful send returns exactly this
merged draft as the `email_preview`. -/
theorem gmail_send_merge_precedence (gmailInitError : Option String)
    (parse_task : Except String EmailData)
    (pipeline : EmailData → Except String Unit) (req : GmailSendRequest)
    (instr final : EmailData) (hp : parse_task = Except.ok instr)
    (hfinal : final = parse_email_json (merge_recipients instr req)) :
    (final.«to» = if req.«to» ≠ [] then req.«to» else instr.«to»)
    ∧ (final.cc = if req.cc ≠ [] then req.cc else instr.cc)
    ∧ (final.bcc = if req.bcc ≠ [] then req.bcc else instr.bcc)
    ∧ (final.«to» ≠ [] → pipeline final = Except.ok () →
        (gmail_send true gmailInitError parse_task pipeline req).1
          = ApiResult.ok ⟨true, "✅ Email sent successfully", final⟩) := by
  subst hp hfinal
  refine ⟨rfl, rfl, rfl, fun hne hok => ?_⟩
  simp only [parse_email_json] at hne hok
  simp [gmail_send, gmail_send_try, parse_email_json, hne, hok]

/-- Witness for `gmail_send_merge_precedence`: Translator output
`to = ["a@x"]` with request override `to = ["b@x"]` yields a final (and
previewed) `to` of `["b@x"]`. -/
theorem gmail_send_merge_precedence_witness :
    ((⟨["b@x"], [], [], "s", "b"⟩ : EmailData).«to»
        = if (["b@x"] : List String) ≠ [] then ["b@x"]
          else (["a@x"] : List String))
    ∧ ((⟨["b@x"], [], [], "s", "b"⟩ : EmailData).cc
        = if ([] : List String) ≠ [] then [] else ([] : List String))
    ∧ ((⟨["b@x"], [], [], "s", "b"⟩ : EmailData).bcc
        = if ([] : List String) ≠ [] then [] else ([] : List String))
    ∧ ((⟨["b@x"], [], [], "s", "b"⟩ : EmailData).«to» ≠ [] →
        (fun (_ : EmailData) => (Except.ok () : Except String Unit))
            (⟨["b@x"], [], [], "s", "b"⟩ : EmailData)
          = Except.ok () →
        (gmail_send true none (Except.ok ⟨["a@x"], [], [], "s", "b"⟩)
            (fun _ => (Except.ok () : Except String Unit))
            ⟨"t", ["b@x"], [], [], none⟩).1
          = ApiResult.ok ⟨true, "✅ Email sent successfully",
              ⟨["b@x"], [], [], "s", "b"⟩⟩) :=
  gmail_send_merge_precedence none (Except.ok ⟨["a@x"], [], [], "s", "b"⟩)
    (fun _ => (Except.ok () : Except String Unit)) ⟨"t", ["b@x"], [], [], none⟩
    ⟨["a@x"], [], [], "s", "b"⟩ ⟨["b@x"], [], [], "s", "b"⟩ rfl rfl

/-- C5: for every `POST /gmail/send` request whose merged draft has an empty
`to` list, the request is rejected before `_send_email_async` is invoked —
the pipeline-invocation flag stays `false`, so no browser interaction
(launch, login, fill, click) is attempted. -/
theorem gmail_send_empty_to_no_pipeline (gmailInitError : Option String)
    (parse_task : Except String EmailData)
    (pipeline : EmailData → Except String Unit) (req : GmailSendRequest)
    (instr : EmailData) (hp : parse_task = Except.ok instr)
    (hto : (merge_recipients instr req).«to» = []) :
    (gmail_send true gmailInitError parse_task pipeline req).2 = false := by
  subst hp
  simp [gmail_send, gmail_send_try, parse_email_json, hto]

/-- Witness for `gmail_send_empty_to_no_pipeline` at a concrete request. -/
theorem gmail_send_empty_to_no_pipeline_witness :
    (gmail_send true (some "init") (Except.ok ⟨[], ["c@x"], [], "s", "b"⟩)
        (fun _ => Except.error "browser crashed") ⟨"t", [], [], [], none⟩).2
      = false :=
  gmail_send_empty_to_no_pipeline (some "init") _ _ _ _ rfl rfl

/-!
Helper lemmas about the trace semantics.
-/

/-- Successful sequencing decomposes: the first computation succeeded, the
continuation succeeded on its result, and the traces concatenate. -/
theorem andThen_ok {α β : Type} {r : Except String α × Nat × List Event}
    {f : α → Nat → Except String β × Nat × List Event} {b : β} {n2 : Nat}
    {evs : List Event} (h : andThen r f = (Except.ok b, n2, evs)) :
    ∃ a n1 evs1 evs2, r = (Except.ok a, n1, evs1)
      ∧ f a n1 = (Except.ok b, n2, evs2) ∧ evs = evs1 ++ evs2 := by
  rcases r with ⟨v, n0, evs0⟩
  cases v with
  | error e => simp [andThen] at h
  | ok a =>
    rcases hf : f a n0 with ⟨v2, n2x, evs2⟩
    have hand : andThen (Except.ok a, n0, evs0) f = (v2, n2x, evs0 ++ evs2) := by
      simp [andThen, hf]
    rw [hand] at h
    injection h with hv h'
    injection h' with hn he
    exact ⟨a, n0, evs0, evs2, rfl, by rw [hf, hv, hn], he.symm⟩

/-- A pointwise property of the traces of both computations carries over to
the trace of their sequencing. -/
theorem andThen_mem {α β : Type} (P : Event → Prop)
    (r : Except String α × Nat × List Event)
    (f : α → Nat → Except String β × Nat × List Event)
    (hr : ∀ e ∈ r.2.2, P e) (hf : ∀ a m, ∀ e ∈ (f a m).2.2, P e) :
    ∀ e ∈ (andThen r f).2.2, P e := by
  rcases r with ⟨v, n0, evs0⟩
  cases v with
  | error e0 => simpa [andThen] using hr
  | ok a =>
    rcases hfa : f a n0 with ⟨v2, n2, evs2⟩
    intro e he
    simp only [andThen, hfa] at he
    rcases List.mem_append.mp he with h | h
    · exact hr e h
    · have hm := hf a n0 e
      rw [hfa] at hm
      exact hm h

/-- Every event issued by the candidate loop is a visibility wait with the
shared per-candidate budget. -/
theorem tryCandidates_mem (beh : Beh) (b : Nat) :
    ∀ (sels : List String) (n : Nat) (e : Event),
      e ∈ (tryCandidates beh b sels n).2.2 → ∃ s, e = Event.waitFor s b := by
  intro sels
  induction sels with
  | nil => intro n e he; simp [tryCandidates] at he
  | cons s rest ih =>
    intro n e he
    by_cases hb : beh n = true
    · simp [tryCandidates, hb] at he
      exact ⟨s, he⟩
    · rcases ht : tryCandidates beh b rest (n + 1) with ⟨r, n2, evs⟩
      simp only [tryCandidates, hb, Bool.false_eq_true, if_false, ht] at he
      rcases List.mem_cons.mp he with rfl | h
      · exact ⟨s, rfl⟩
      · exact ih (n + 1) e (by rw [ht]; exact h)

/-- The trace of `wait_for_element` is its entry marker followed by search
events only, whatever the outcome. -/
theorem wait_for_element_shape (beh : Beh) (sels : List String) (t : Nat)
    (d : String) (n : Nat) :
    ∃ w, (wait_for_element beh sels t d n).2.2 = Event.locate d :: w
      ∧ ∀ e ∈ w, isWaitEvent e = true := by
  rcases htc : tryCandidates beh (t / sels.length) sels n with ⟨r, n2, evs⟩
  have hevs : ∀ e ∈ evs, isWaitEvent e = true := by
    intro e he
    obtain ⟨s, rfl⟩ :=
      tryCandidates_mem beh (t / sels.length) sels n e (by rw [htc]; exact he)
    rfl
  cases r with
  | some el => exact ⟨evs, by simp [wait_for_element, htc], hevs⟩
  | none =>
    by_cases h1 : beh n2 = true
    · refine ⟨evs ++ [Event.dialogQuery, Event.textboxQuery], ?_, ?_⟩
      · by_cases h2 : beh (n2 + 1) = true <;>
          simp [wait_for_element, htc, h1, h2]
      · intro e he
        rcases List.mem_append.mp he with h | h
        · exact hevs e h
        · simp only [List.mem_cons, List.not_mem_nil, or_false] at h
          rcases h with rfl | rfl <;> rfl
    · refine ⟨evs ++ [Event.dialogQuery], by simp [wait_for_element, htc, h1], ?_⟩
      intro e he
      rcases List.mem_append.mp he with h | h
      · exact hevs e h
      · simp only [List.mem_singleton] at h
        subst h
        rfl

/-- A wait/search event is neither a location marker nor a snapshot call. -/
theorem isWaitEvent_elim (e : Event) (h : isWaitEvent e = true) :
    isLocate e = false ∧ isSnapshotCall e = false := by
  cases e <;> simp [isWaitEvent, isLocate, isSnapshotCall] at *

/-- No event of `wait_for_element`'s trace is a snapshot call. -/
theorem wait_for_element_noSnap (beh : Beh) (sels : List String) (t : Nat)
    (d : String) (n : Nat) :
    ∀ e ∈ (wait_for_element beh sels t d n).2.2, isSnapshotCall e = false := by
  obtain ⟨w, hw, hall⟩ := wait_for_element_shape beh sels t d n
  intro e he
  rw [hw] at he
  rcases List.mem_cons.mp he with rfl | h
  · rfl
  · exact (isWaitEvent_elim e (hall e h)).2

/-- The single event of an `opStep` inherits any property of that event. -/
theorem opStep_mem (P : Event → Prop) (beh : Beh) (n : Nat) (ev : Event)
    (msg : String) (hp : P ev) :
    ∀ e ∈ (opStep beh n ev msg).2.2, P e := by
  intro e he
  simp only [opStep, List.mem_singleton] at he
  subst he
  exact hp

/-- No event of a `fillAttempt` trace is a snapshot call. -/
theorem fillAttempt_noSnap (beh : Beh) (field_type value : String) (n : Nat) :
    ∀ e ∈ (fillAttempt beh field_type value n).2.2,
      isSnapshotCall e = false := by
  rcases hfs : fieldSelectors field_type with _ | ⟨sels, t, desc⟩
  · simp [fillAttempt, hfs]
  · intro e he
    simp only [fillAttempt, hfs] at he
    refine andThen_mem (fun e => isSnapshotCall e = false) _ _
      (wait_for_element_noSnap beh sels t desc n) ?_ e he
    intro a m
    refine andThen_mem _ _ _ (opStep_mem _ beh m (Event.click a) _ rfl) ?_
    intro a2 m2
    refine andThen_mem _ _ _ (opStep_mem _ beh m2 (Event.clear a) _ rfl) ?_
    intro a3 m3
    refine andThen_mem _ _ _ (opStep_mem _ beh m3 (Event.fill a value) _ rfl) ?_
    intro a4 m4 e2 he2
    simp at he2

/-- No event of a `fillRetryGo` trace is a snapshot call. -/
theorem fillRetryGo_noSnap (beh : Beh) (field_type value : String) :
    ∀ (r n : Nat), ∀ e ∈ (fillRetryGo beh field_type value r n).2.2,
      isSnapshotCall e = false := by
  intro r
  induction r with
  | zero => intro n e he; simp [fillRetryGo] at he
  | succ r ih =>
    intro n e he
    rcases ha : fillAttempt beh field_type value n with ⟨v, n2, evs⟩
    have hevs : ∀ e ∈ evs, isSnapshotCall e = false := by
      intro e2 he2
      exact fillAttempt_noSnap beh field_type value n e2 (by rw [ha]; exact he2)
    cases v with
    | ok b =>
      simp only [fillRetryGo, ha] at he
      exact hevs e he
    | error msg =>
      by_cases hr : r = 0
      · subst hr
        simp only [fillRetryGo, ha, if_pos rfl] at he
        exact hevs e he
      · rcases hrec : fillRetryGo beh field_type value r n2 with ⟨v2, n3, evs2⟩
        simp only [fillRetryGo, ha, if_neg hr, hrec] at he
        rcases List.mem_append.mp he with h | h
        · exact hevs e h
        · rcases List.mem_cons.mp h with rfl | h2
          · rfl
          · exact ih n2 e (by rw [hrec]; exact h2)

/-- No event of a `fillOneRecipient` trace is a snapshot call. -/
theorem fillOneRecipient_noSnap (beh : Beh) (sels : List String)
    (desc addr : String) (n : Nat) :
    ∀ e ∈ (fillOneRecipient beh sels desc addr n).2.2,
      isSnapshotCall e = false := by
  refine andThen_mem _ _ _ (wait_for_element_noSnap beh sels 5000 desc n) ?_
  intro a m
  refine andThen_mem _ _ _ (opStep_mem _ beh m (Event.click a) _ rfl) ?_
  intro a2 m2
  refine andThen_mem _ _ _ (opStep_mem _ beh m2 (Event.fill a addr) _ rfl) ?_
  intro a3 m3
  exact opStep_mem _ beh m3 Event.pressEnter _ rfl

/-- No event of a `fillRecipientList` trace is a snapshot call. -/
theorem fillRecipientList_noSnap (beh : Beh) (sels : List String)
    (desc : String) :
    ∀ (addrs : List String) (n : Nat),
      ∀ e ∈ (fillRecipientList beh sels desc addrs n).2.2,
        isSnapshotCall e = false := by
  intro addrs
  induction addrs with
  | nil => intro n e he; simp [fillRecipientList] at he
  | cons a rest ih =>
    intro n
    refine andThen_mem _ _ _ (fillOneRecipient_noSnap beh sels desc a n) ?_
    intro u m
    exact ih m

/-- No event of a `composePhase` trace is a snapshot call. -/
theorem composePhase_noSnap (beh : Beh) (n : Nat) :
    ∀ e ∈ (composePhase beh n).2.2, isSnapshotCall e = false := by
  refine andThen_mem _ _ _
    (wait_for_element_noSnap beh [composeSel] 10000 "compose button" n) ?_
  intro a m
  refine andThen_mem _ _ _ (opStep_mem _ beh m (Event.click a) _ rfl) ?_
  intro a2 m2
  refine andThen_mem _ _ _
    (wait_for_element_noSnap beh [dialogSel] 10000 "compose dialog" m2) ?_
  intro a3 m3 e he
  simp only [List.mem_singleton] at he
  subst he
  rfl

/-- No event of a `finishPhase` trace is a snapshot call. -/
theorem finishPhase_noSnap (beh : Beh) (ed : EmailData) (n : Nat) :
    ∀ e ∈ (finishPhase beh ed n).2.2, isSnapshotCall e = false := by
  refine andThen_mem _ _ _ (fillRetryGo_noSnap beh "subject" ed.subject 3 n) ?_
  intro a m
  refine andThen_mem _ _ _
    (wait_for_element_noSnap beh bodySels 5000 "Message body" m) ?_
  intro a2 m2
  refine andThen_mem _ _ _ (opStep_mem _ beh m2 (Event.click a2) _ rfl) ?_
  intro a3 m3
  refine andThen_mem _ _ _ (opStep_mem _ beh m3 (Event.fill a2 ed.body) _ rfl) ?_
  intro a4 m4
  refine andThen_mem _ _ _
    (wait_for_element_noSnap beh sendSels 5000 "Send button" m4) ?_
  intro a5 m5
  refine andThen_mem _ _ _ (opStep_mem _ beh m5 (Event.click a5) _ rfl) ?_
  intro a6 m6
  refine andThen_mem _ _ _
    (opStep_mem _ beh m6 (Event.waitSelector confirmSel 10000) _ rfl) ?_
  intro a7 m7 e he
  simp at he

/-- No event of a `sendAttempt` trace is a snapshot call: the diagnostic
snapshot function is never invoked from inside an attempt. -/
theorem sendAttempt_noSnap (beh : Beh) (ed : EmailData) (n : Nat) :
    ∀ e ∈ (sendAttempt beh ed n).2.2, isSnapshotCall e = false := by
  refine andThen_mem _ _ _ (composePhase_noSnap beh n) ?_
  intro a m
  refine andThen_mem _ _ _
    (fillRecipientList_noSnap beh toSels "To field" ed.«to» m) ?_
  intro a2 m2
  refine andThen_mem _ _ _
    (fillRecipientList_noSnap beh ccSels "Cc field" ed.cc m2) ?_
  intro a3 m3
  refine andThen_mem _ _ _
    (fillRecipientList_noSnap beh bccSels "Bcc field" ed.bcc m3) ?_
  intro a4 m4
  exact finishPhase_noSnap beh ed m4

/-- A trace without snapshot calls has snapshot-call count zero. -/
theorem noSnap_countP (l : List Event)
    (h : ∀ e ∈ l, isSnapshotCall e = false) :
    l.countP isSnapshotCall = 0 :=
  List.countP_eq_zero.mpr (fun e he => by simp [h e he])

/-- `save_screenshot` records exactly one snapshot-function invocation. -/
theorem save_screenshot_snapCount (beh : Beh) (ts label : String) (n : Nat) :
    (save_screenshot beh ts label n).2.2.countP isSnapshotCall = 1 := by
  by_cases h1 : beh n = true
  · by_cases h2 : beh (n + 1) = true <;>
      simp [save_screenshot, h1, h2, List.countP_cons, isSnapshotCall]
  · simp [save_screenshot, h1, List.countP_cons, isSnapshotCall]

/-- The run of `send_email` when all three attempts fail: the result is the
third attempt's error and the trace is the three attempt traces, the two
inter-attempt sleeps, and the diagnostic-snapshot trace. -/
theorem sendRetry_exhaustion (beh : Beh) (ts : String) (ed : EmailData)
    (n n1 n2 n3 : Nat) (e1 e2 e3 : String) (t1 t2 t3 : List Event)
    (h1 : sendAttempt beh ed n = (Except.error e1, n1, t1))
    (h2 : sendAttempt beh ed n1 = (Except.error e2, n2, t2))
    (h3 : sendAttempt beh ed n2 = (Except.error e3, n3, t3)) :
    send_email beh ts ed n
      = (Except.error e3,
         (save_screenshot beh ts ("send_error_attempt_" ++ toString 3) n3).2.1,
         t1 ++ Event.sleep 2 :: (t2 ++ Event.sleep 2 :: (t3
           ++ (save_screenshot beh ts ("send_error_attempt_" ++ toString 3) n3).2.2))) := by
  rcases hs : save_screenshot beh ts ("send_error_attempt_" ++ toString 3) n3
    with ⟨o, n4, t4⟩
  simp [send_email, sendRetryGo, h1, h2, h3, hs]

/-- A successful `fillAttempt` returns `True` (the `return True` of line 102). -/
theorem fillAttempt_ok_val (beh : Beh) (field_type value : String) (n : Nat)
    (b : Bool) (n2 : Nat) (t : List Event)
    (h : fillAttempt beh field_type value n = (Except.ok b, n2, t)) :
    b = true := by
  rcases hfs : fieldSelectors field_type with _ | ⟨sels, tt, desc⟩
  · rw [fillAttempt, hfs] at h
    simp at h
  · rw [fillAttempt, hfs] at h
    obtain ⟨a1, m1, e1, e2, hr1, hrest1, hev1⟩ := andThen_ok h
    obtain ⟨a2, m2, e3, e4, hr2, hrest2, hev2⟩ := andThen_ok hrest1
    obtain ⟨a3, m3, e5, e6, hr3, hrest3, hev3⟩ := andThen_ok hrest2
    obtain ⟨a4, m4, e7, e8, hr4, hrest4, hev4⟩ := andThen_ok hrest3
    injection hrest4 with hv hrest5
    injection hv with hb
    exact hb.symm

/-- A chain of failing-then-succeeding attempts only exists for the three
known field types (an unknown `field_type` raises `NameError` on every
attempt, so no attempt can succeed). -/
theorem failsThenSucceeds_known (beh : Beh) (field_type value : String) :
    ∀ (k n : Nat), failsThenSucceeds beh field_type value n k →
      ∃ s, fieldSelectors field_type = some s := by
  intro k
  induction k with
  | zero =>
    intro n h
    simp only [failsThenSucceeds] at h
    obtain ⟨b, n2, t, hatt⟩ := h
    rcases hfs : fieldSelectors field_type with _ | s
    · rw [fillAttempt, hfs] at hatt
      simp at hatt
    · exact ⟨s, rfl⟩
  | succ k ih =>
    intro n h
    simp only [failsThenSucceeds] at h
    obtain ⟨e, n2, t, hatt, htail⟩ := h
    exact ih n2 htail

/-- Every `wait_for_element` call records exactly one location marker. -/
theorem wait_for_element_locateCount (beh : Beh) (sels : List String)
    (t : Nat) (d : String) (n : Nat) :
    (wait_for_element beh sels t d n).2.2.countP isLocate = 1 := by
  obtain ⟨w, hw, hall⟩ := wait_for_element_shape beh sels t d n
  have hw0 : w.countP isLocate = 0 :=
    List.countP_eq_zero.mpr
      (fun e he => by simp [(isWaitEvent_elim e (hall e he)).1])
  rw [hw]
  simp [List.countP_cons, isLocate, hw0]

/-- Every attempt of `fill_field_with_retry` on a known field type performs
exactly one field-location operation. -/
theorem fillAttempt_locateCount (beh : Beh) (field_type value : String)
    (n : Nat) (sels : List String) (tt : Nat) (desc : String)
    (hfs : fieldSelectors field_type = some (sels, tt, desc)) :
    (fillAttempt beh field_type value n).2.2.countP isLocate = 1 := by
  have hcw := wait_for_element_locateCount beh sels tt desc n
  rcases hr : wait_for_element beh sels tt desc n with ⟨v, n1, evs1⟩
  rw [hr] at hcw
  cases v with
  | error e =>
    simp [fillAttempt, hfs, andThen, hr, hcw]
  | ok a =>
    cases hb1 : beh n1 <;> cases hb2 : beh (n1 + 1) <;> cases hb3 : beh (n1 + 2) <;>
      simp [fillAttempt, hfs, andThen, opStep, hr, hb1, hb2, hb3,
        List.countP_append, List.countP_cons, isLocate, hcw]

/-!
Claim theorems about the Gmail automation.
-/

/-- C7: retry idempotence of the field-fill executor: if the attempt body
fails exactly `k < max_retries` times and then succeeds,
`fill_field_with_retry` returns success (`True`) and the body was attempted
exactly `k + 1` times (counted by its per-attempt field-location markers) —
no extra attempts happen after the first success. -/
theorem fill_field_retry_k_then_success (beh : Beh) (field_type value : String) :
    ∀ (k m n : Nat), k < m →
      failsThenSucceeds beh field_type value n k →
      ∃ n2 t, fill_field_with_retry beh field_type value m n
          = (Except.ok true, n2, t)
        ∧ t.countP isLocate = k + 1 := by
  intro k
  induction k with
  | zero =>
    intro m n hm h
    simp only [failsThenSucceeds] at h
    obtain ⟨b, n2, t, hatt⟩ := h
    obtain ⟨⟨sels, tt, desc⟩, hfs⟩ := failsThenSucceeds_known beh field_type
      value 0 n (by simp only [failsThenSucceeds]; exact ⟨b, n2, t, hatt⟩)
    obtain ⟨m2, rfl⟩ : ∃ m2, m = m2 + 1 := ⟨m - 1, by omega⟩
    have hb : b = true := fillAttempt_ok_val beh field_type value n b n2 t hatt
    subst hb
    refine ⟨n2, t, ?_, ?_⟩
    · simp [fill_field_with_retry, fillRetryGo, hatt]
    · have hc := fillAttempt_locateCount beh field_type value n sels tt desc hfs
      rw [hatt] at hc
      exact hc
  | succ k ih =>
    intro m n hm h
    simp only [failsThenSucceeds] at h
    obtain ⟨e, n2, t, hatt, htail⟩ := h
    obtain ⟨⟨sels, tt, desc⟩, hfs⟩ :=
      failsThenSucceeds_known beh field_type value k n2 htail
    obtain ⟨m2, rfl⟩ : ∃ m2, m = m2 + 1 := ⟨m - 1, by omega⟩
    obtain ⟨n3, t2, hrec, hcount⟩ := ih m2 n2 (by omega) htail
    have hm2ne : ¬ m2 = 0 := by omega
    refine ⟨n3, t ++ Event.sleep 1 :: t2, ?_, ?_⟩
    · simp only [fill_field_with_retry, fillRetryGo, hatt, if_neg hm2ne]
      rw [fill_field_with_retry] at hrec
      rw [hrec]
    · have h1 : t.countP isLocate = 1 := by
        have hc := fillAttempt_locateCount beh field_type value n sels tt desc hfs
        rw [hatt] at hc
        exact hc
      simp [List.countP_append, List.countP_cons, isLocate, h1, hcount]
      omega

/-- Witness for `fill_field_retry_k_then_success`: the `to`-field fill fails
once (all waits refused before oracle cursor 5) then succeeds, returning
success after exactly two attempts. -/
theorem fill_field_retry_k_then_success_witness :
    ∃ n2 t, fill_field_with_retry (fun m => decide (5 ≤ m)) "to" "a@x" 3 0
        = (Except.ok true, n2, t)
      ∧ t.countP isLocate = 2 :=
  fill_field_retry_k_then_success (fun m => decide (5 ≤ m)) "to" "a@x" 1 3 0
    (by decide) ⟨_, _, _, rfl, _, _, _, rfl⟩

/-- C6: when a retried action fails on all its attempts, the original
last-captured error — not a wrapped or generic one — is re-raised to the
caller; for the send action (`send_email`, three attempts) the diagnostic
snapshot function is additionally invoked exactly once, on the final failed
attempt, and for the field-fill action (`fill_field_with_retry` at its
default `max_retries = 3`) the final attempt's error is re-raised unchanged
with no snapshot. -/
theorem retry_exhaustion_snapshot_once_original_error :
    (∀ (beh : Beh) (ts : String) (ed : EmailData) (n n1 n2 n3 : Nat)
        (e1 e2 e3 : String) (t1 t2 t3 : List Event),
        sendAttempt beh ed n = (Except.error e1, n1, t1) →
        sendAttempt beh ed n1 = (Except.error e2, n2, t2) →
        sendAttempt beh ed n2 = (Except.error e3, n3, t3) →
        ∃ n4 t4, send_email beh ts ed n = (Except.error e3, n4, t4)
          ∧ t4.countP isSnapshotCall = 1)
    ∧ (∀ (beh : Beh) (field_type value : String) (n n1 n2 n3 : Nat)
        (e1 e2 e3 : String) (t1 t2 t3 : List Event),
        fillAttempt beh field_type value n = (Except.error e1, n1, t1) →
        fillAttempt beh field_type value n1 = (Except.error e2, n2, t2) →
        fillAttempt beh field_type value n2 = (Except.error e3, n3, t3) →
        fill_field_with_retry beh field_type value 3 n
          = (Except.error e3, n3,
             t1 ++ Event.sleep 1 :: (t2 ++ Event.sleep 1 :: t3))
          ∧ (fill_field_with_retry beh field_type value 3 n).2.2.countP
              isSnapshotCall = 0) := by
  constructor
  · intro beh ts ed n n1 n2 n3 e1 e2 e3 t1 t2 t3 h1 h2 h3
    refine ⟨_, _,
      sendRetry_exhaustion beh ts ed n n1 n2 n3 e1 e2 e3 t1 t2 t3 h1 h2 h3, ?_⟩
    have c1 : t1.countP isSnapshotCall = 0 :=
      noSnap_countP _ (fun e he =>
        sendAttempt_noSnap beh ed n e (by rw [h1]; exact he))
    have c2 : t2.countP isSnapshotCall = 0 :=
      noSnap_countP _ (fun e he =>
        sendAttempt_noSnap beh ed n1 e (by rw [h2]; exact he))
    have c3 : t3.countP isSnapshotCall = 0 :=
      noSnap_countP _ (fun e he =>
        sendAttempt_noSnap beh ed n2 e (by rw [h3]; exact he))
    have c4 := save_screenshot_snapCount beh ts
      ("send_error_attempt_" ++ toString 3) n3
    simp [List.countP_append, List.countP_cons, c1, c2, c3, c4, isSnapshotCall]
  · intro beh field_type value n n1 n2 n3 e1 e2 e3 t1 t2 t3 h1 h2 h3
    have heq : fill_field_with_retry beh field_type value 3 n
        = (Except.error e3, n3,
           t1 ++ Event.sleep 1 :: (t2 ++ Event.sleep 1 :: t3)) := by
      simp [fill_field_with_retry, fillRetryGo, h1, h2, h3]
    refine ⟨heq, ?_⟩
    rw [heq]
    exact noSnap_countP _ (fun e he => by
      exact fillRetryGo_noSnap beh field_type value 3 n e
        (by rw [fill_field_with_retry] at heq; rw [heq]; exact he))

/-- Witness for `retry_exhaustion_snapshot_once_original_error` under the
always-failing behaviour: both the send loop and a `to`-field fill loop
exhaust all three attempts. -/
theorem retry_exhaustion_snapshot_once_original_error_witness :
    (∃ n4 t4, send_email (fun _ => false) "TS" edOneRecipient 0
        = (Except.error "Could not find compose button", n4, t4)
      ∧ t4.countP isSnapshotCall = 1)
    ∧ ((fill_field_with_retry (fun _ => false) "to" "a@x" 3 0).1
        = Except.error "Could not find To field") := by
  constructor
  · exact retry_exhaustion_snapshot_once_original_error.1
      (fun _ => false) "TS" edOneRecipient 0 _ _ _ _ _ _ _ _ _ rfl rfl rfl
  · rw [(retry_exhaustion_snapshot_once_original_error.2
      (fun _ => false) "to" "a@x" 0 _ _ _ _ _ _ _ _ _ rfl rfl rfl).1]
    rfl

/-- The candidate loop tries the selectors in list order, each waited on with
the shared per-candidate budget: either some candidate is the first whose
visibility wait succeeds and the traversal stops right there, or every
candidate's wait fails and the loop falls through. -/
theorem tryCandidates_spec (beh : Beh) (b : Nat) :
    ∀ (sels : List String) (n : Nat),
      (∃ i, ∃ hi : i < sels.length,
        (∀ j, j < i → beh (n + j) = false) ∧ beh (n + i) = true ∧
        tryCandidates beh b sels n
          = (some (sels.get ⟨i, hi⟩), n + i + 1,
             (sels.take (i + 1)).map (fun s => Event.waitFor s b)))
      ∨ ((∀ j, j < sels.length → beh (n + j) = false) ∧
         tryCandidates beh b sels n
           = (none, n + sels.length,
              sels.map (fun s => Event.waitFor s b))) := by
  intro sels
  induction sels with
  | nil =>
    intro n
    right
    exact ⟨fun j hj => absurd hj (by simp), by simp [tryCandidates]⟩
  | cons s rest ih =>
    intro n
    by_cases hb : beh n = true
    · left
      exact ⟨0, by simp, fun j hj => absurd hj (by omega), by simpa using hb,
        by simp [tryCandidates, hb]⟩
    · have hbf : beh n = false := by simpa using hb
      rcases ih (n + 1) with ⟨i, hi, hjs, hbi, heq⟩ | ⟨hall, heq⟩
      · left
        refine ⟨i + 1, by simpa using Nat.succ_lt_succ hi, ?_, ?_, ?_⟩
        · intro j hj
          cases j with
          | zero => simpa using hbf
          | succ j2 =>
            have hj2 : beh (n + 1 + j2) = false := hjs j2 (by omega)
            have harith : n + (j2 + 1) = n + 1 + j2 := by omega
            rw [harith]
            exact hj2
        · have harith : n + (i + 1) = n + 1 + i := by omega
          rw [harith]
          exact hbi
        · simp only [tryCandidates, hbf, Bool.false_eq_true, if_false, heq]
          refine congrArg₂ Prod.mk (by simp) (congrArg₂ Prod.mk (by omega) ?_)
          simp [List.take_succ_cons]
      · right
        refine ⟨?_, ?_⟩
        · intro j hj
          cases j with
          | zero => simpa using hbf
          | succ j2 =>
            have hj2 : beh (n + 1 + j2) = false :=
              hall j2 (by simp at hj; omega)
            have harith : n + (j2 + 1) = n + 1 + j2 := by omega
            rw [harith]
            exact hj2
        · simp only [tryCandidates, hbf, Bool.false_eq_true, if_false, heq]
          refine congrArg₂ Prod.mk rfl (congrArg₂ Prod.mk (by simp; omega) ?_)
          simp

/-- C8: for every call of `wait_for_element` with a non-empty candidate list
and total timeout `t`, each candidate is waited on with the per-candidate
budget `t / sels.length`, candidates are tried in list order, and the first
candidate whose wait resolves (to a visible element) is returned; when no
candidate resolves, the dialog fallback decides the outcome, and the call
fails with `Could not find <description>` only if the fallback also finds
nothing (no dialog, or a dialog without a text-editable element). -/
theorem wait_for_element_spec (beh : Beh) (sels : List String) (t : Nat)
    (d : String) (n : Nat) (hne : sels ≠ []) :
    (∃ i, ∃ hi : i < sels.length,
      (∀ j, j < i → beh (n + j) = false) ∧ beh (n + i) = true ∧
      wait_for_element beh sels t d n
        = (Except.ok (sels.get ⟨i, hi⟩), n + i + 1,
           Event.locate d ::
             (sels.take (i + 1)).map (fun s => Event.waitFor s (t / sels.length))))
    ∨ ((∀ j, j < sels.length → beh (n + j) = false) ∧
       ((beh (n + sels.length) = true ∧ beh (n + sels.length + 1) = true ∧
         wait_for_element beh sels t d n
           = (Except.ok "dialog_textbox", n + sels.length + 2,
              Event.locate d ::
                (sels.map (fun s => Event.waitFor s (t / sels.length))
                  ++ [Event.dialogQuery, Event.textboxQuery])))
        ∨ (beh (n + sels.length) = true ∧ beh (n + sels.length + 1) = false ∧
           wait_for_element beh sels t d n
             = (Except.error ("Could not find " ++ d), n + sels.length + 2,
                Event.locate d ::
                  (sels.map (fun s => Event.waitFor s (t / sels.length))
                    ++ [Event.dialogQuery, Event.textboxQuery])))
        ∨ (beh (n + sels.length) = false ∧
           wait_for_element beh sels t d n
             = (Except.error ("Could not find " ++ d), n + sels.length + 1,
                Event.locate d ::
                  (sels.map (fun s => Event.waitFor s (t / sels.length))
                    ++ [Event.dialogQuery]))))) := by
  rcases tryCandidates_spec beh (t / sels.length) sels n
    with ⟨i, hi, hjs, hbi, heq⟩ | ⟨hall, heq⟩
  · left
    exact ⟨i, hi, hjs, hbi, by simp [wait_for_element, heq]⟩
  · right
    refine ⟨hall, ?_⟩
    by_cases h1 : beh (n + sels.length) = true
    · by_cases h2 : beh (n + sels.length + 1) = true
      · exact Or.inl ⟨h1, h2, by simp [wait_for_element, heq, h1, h2]⟩
      · exact Or.inr (Or.inl ⟨h1, by simpa using h2,
          by simp [wait_for_element, heq, h1, h2]⟩)
    · exact Or.inr (Or.inr ⟨by simpa using h1,
        by simp [wait_for_element, heq, h1]⟩)

/-- Witness for `wait_for_element_spec` on the `To`-field candidate set with
a behaviour under which exactly the second candidate resolves. -/
theorem wait_for_element_spec_witness :
    (∃ i, ∃ hi : i < toSels.length,
      (∀ j, j < i → (fun m => decide (m = 1)) (0 + j) = false)
      ∧ (fun m => decide (m = 1)) (0 + i) = true
      ∧ wait_for_element (fun m => decide (m = 1)) toSels 5000 "To field" 0
        = (Except.ok (toSels.get ⟨i, hi⟩), 0 + i + 1,
           Event.locate "To field" ::
             (toSels.take (i + 1)).map
               (fun s => Event.waitFor s (5000 / toSels.length))))
    ∨ ((∀ j, j < toSels.length → (fun m => decide (m = 1)) (0 + j) = false)
       ∧ (((fun m => decide (m = 1)) (0 + toSels.length) = true
           ∧ (fun m => decide (m = 1)) (0 + toSels.length + 1) = true
           ∧ wait_for_element (fun m => decide (m = 1)) toSels 5000 "To field" 0
             = (Except.ok "dialog_textbox", 0 + toSels.length + 2,
                Event.locate "To field" ::
                  (toSels.map (fun s => Event.waitFor s (5000 / toSels.length))
                    ++ [Event.dialogQuery, Event.textboxQuery])))
          ∨ ((fun m => decide (m = 1)) (0 + toSels.length) = true
             ∧ (fun m => decide (m = 1)) (0 + toSels.length + 1) = false
             ∧ wait_for_element (fun m => decide (m = 1)) toSels 5000 "To field" 0
               = (Except.error ("Could not find " ++ "To field"),
                  0 + toSels.length + 2,
                  Event.locate "To field" ::
                    (toSels.map (fun s => Event.waitFor s (5000 / toSels.length))
                      ++ [Event.dialogQuery, Event.textboxQuery])))
          ∨ ((fun m => decide (m = 1)) (0 + toSels.length) = false
             ∧ wait_for_element (fun m => decide (m = 1)) toSels 5000 "To field" 0
               = (Except.error ("Could not find " ++ "To field"),
                  0 + toSels.length + 1,
                  Event.locate "To field" ::
                    (toSels.map (fun s => Event.waitFor s (5000 / toSels.length))
                      ++ [Event.dialogQuery]))))) :=
  wait_for_element_spec (fun m => decide (m = 1)) toSels 5000 "To field" 0
    (by simp [toSels])

/-- A successful `fillOneRecipient` run produces exactly one recipient block:
re-locate, click, fill the address, press Enter. -/
theorem fillOneRecipient_ok_block (beh : Beh) (sels : List String)
    (desc addr : String) (n : Nat) (u : Unit) (n2 : Nat) (evs : List Event)
    (h : fillOneRecipient beh sels desc addr n = (Except.ok u, n2, evs)) :
    recipientBlock desc addr evs := by
  rw [fillOneRecipient] at h
  obtain ⟨el, m1, e1, e2, hwait, hrest1, hev1⟩ := andThen_ok h
  obtain ⟨u2, m2, e3, e4, hclick, hrest2, hev2⟩ := andThen_ok hrest1
  obtain ⟨u3, m3, e5, e6, hfill, hrest3, hev3⟩ := andThen_ok hrest2
  obtain ⟨w, hw, hall⟩ := wait_for_element_shape beh sels 5000 desc n
  rw [hwait] at hw
  have hw2 : e1 = Event.locate desc :: w := hw
  have he3 : e3 = [Event.click el] := by
    have hc := congrArg (fun x => x.2.2) hclick
    simpa [opStep] using hc.symm
  have he5 : e5 = [Event.fill el addr] := by
    have hc := congrArg (fun x => x.2.2) hfill
    simpa [opStep] using hc.symm
  have he6 : e6 = [Event.pressEnter] := by
    have hc := congrArg (fun x => x.2.2) hrest3
    simpa [opStep] using hc.symm
  refine ⟨w, el, hall, ?_⟩
  rw [hev1, hev2, hev3, he3, he5, he6, hw2]
  simp

/-- A successful recipient loop produces one recipient block per address,
concatenated in list order. -/
theorem fillRecipientList_ok_blocks (beh : Beh) (sels : List String)
    (desc : String) :
    ∀ (addrs : List String) (n : Nat) (u : Unit) (n2 : Nat) (evs : List Event),
      fillRecipientList beh sels desc addrs n = (Except.ok u, n2, evs) →
      ∃ bs, evs = bs.flatten ∧ List.Forall₂ (recipientBlock desc) addrs bs := by
  intro addrs
  induction addrs with
  | nil =>
    intro n u n2 evs h
    simp only [fillRecipientList] at h
    injection h with h1 h'
    injection h' with h2 h3
    exact ⟨[], by simp [h3.symm], List.Forall₂.nil⟩
  | cons a rest ih =>
    intro n u n2 evs h
    simp only [fillRecipientList] at h
    obtain ⟨u1, m1, evs1, evs2, hone, hrest, hev⟩ := andThen_ok h
    obtain ⟨bs, hbs, hforall⟩ := ih m1 u n2 evs2 hrest
    exact ⟨evs1 :: bs, by simp [hev, hbs],
      List.Forall₂.cons
        (fillOneRecipient_ok_block beh sels desc a n u1 m1 evs1 hone) hforall⟩

/-- C3: within one successful attempt of the send pipeline the recipient
fields are filled in the fixed order — every address of `to` in sequence,
then every address of `cc`, then every address of `bcc` — and for each
individual address the field is re-located, clicked, filled, and committed
with an Enter keypress before the next address is handled. -/
theorem sendAttempt_recipients_in_order (beh : Beh) (ed : EmailData)
    (n : Nat) (b : Bool)
    (h : (sendAttempt beh ed n).1 = Except.ok b) :
    ∃ pre bs1 bs2 bs3 post,
      (sendAttempt beh ed n).2.2
        = pre ++ (bs1.flatten ++ (bs2.flatten ++ (bs3.flatten ++ post)))
      ∧ List.Forall₂ (recipientBlock "To field") ed.«to» bs1
      ∧ List.Forall₂ (recipientBlock "Cc field") ed.cc bs2
      ∧ List.Forall₂ (recipientBlock "Bcc field") ed.bcc bs3 := by
  rcases hr : sendAttempt beh ed n with ⟨v, n2, evs⟩
  rw [hr] at h
  simp only at h
  subst h
  rw [sendAttempt] at hr
  obtain ⟨u0, n4, evsC, evsR1, hcomp, hrest1, hev1⟩ := andThen_ok hr
  obtain ⟨u1, n5, evsTo, evsR2, hto, hrest2, hev2⟩ := andThen_ok hrest1
  obtain ⟨u2, n6, evsCc, evsR3, hcc, hrest3, hev3⟩ := andThen_ok hrest2
  obtain ⟨u3, n7, evsBcc, evsR4, hbcc, hrest4, hev4⟩ := andThen_ok hrest3
  obtain ⟨bs1, hbs1, hf1⟩ :=
    fillRecipientList_ok_blocks beh toSels "To field" ed.«to» n4 u1 n5 evsTo hto
  obtain ⟨bs2, hbs2, hf2⟩ :=
    fillRecipientList_ok_blocks beh ccSels "Cc field" ed.cc n5 u2 n6 evsCc hcc
  obtain ⟨bs3, hbs3, hf3⟩ :=
    fillRecipientList_ok_blocks beh bccSels "Bcc field" ed.bcc n6 u3 n7 evsBcc hbcc
  refine ⟨evsC, bs1, bs2, bs3, evsR4, ?_, hf1, hf2, hf3⟩
  show evs = evsC ++ (bs1.flatten ++ (bs2.flatten ++ (bs3.flatten ++ evsR4)))
  rw [hev1, hev2, hev3, hev4, hbs1, hbs2, hbs3]

/-- Witness for `sendAttempt_recipients_in_order` under the all-succeeding
behaviour, with two `to` addresses, one `cc` address and one `bcc` address. -/
theorem sendAttempt_recipients_in_order_witness :
    ∃ pre bs1 bs2 bs3 post,
      (sendAttempt (fun _ => true)
          ⟨["a@x", "b@x"], ["c@x"], ["d@x"], "s", "b"⟩ 0).2.2
        = pre ++ (bs1.flatten ++ (bs2.flatten ++ (bs3.flatten ++ post)))
      ∧ List.Forall₂ (recipientBlock "To field") ["a@x", "b@x"] bs1
      ∧ List.Forall₂ (recipientBlock "Cc field") ["c@x"] bs2
      ∧ List.Forall₂ (recipientBlock "Bcc field") ["d@x"] bs3 :=
  sendAttempt_recipients_in_order (fun _ => true)
    ⟨["a@x", "b@x"], ["c@x"], ["d@x"], "s", "b"⟩ 0 true rfl

/-- C9: the send operation is not atomic on failure: under `behNoConfirm` —
every page interaction succeeds but the confirmation marker never appears —
one `send_email` invocation clicks the send button three times (once per
attempt, since each retry restarts from the compose click) and still raises
the timeout error, so a raised error does not imply that no send click
occurred. -/
theorem send_email_not_atomic_on_failure :
    (send_email behNoConfirm "20250101_000000" edOneRecipient 0).1
      = Except.error "Timeout waiting for span.bAq"
    ∧ (send_email behNoConfirm "20250101_000000" edOneRecipient 0).2.2.countP
        (fun ev =>
          decide (ev = Event.click "div[aria-label=\"Send ‪(Ctrl-Enter)‬\"]"))
      = 3 :=
  ⟨rfl, rfl⟩

/-- C10: `save_screenshot` never propagates an exception: it returns the
written path when both `os.makedirs` and `page.screenshot` succeed and
returns `None` when the capture fails (its `except` clause swallows the
error); consequently the snapshot taken on retry exhaustion can never
replace or mask the original error — whenever all three attempts of
`send_email` fail, the surfaced error is exactly the third attempt's error,
whatever the screenshot outcome. -/
theorem save_screenshot_never_masks_error :
    (∀ (beh : Beh) (ts label : String) (n : Nat),
      (beh n = true → beh (n + 1) = true →
        (save_screenshot beh ts label n).1
          = some ("screens/" ++ ts ++ "_" ++ label ++ ".png"))
      ∧ ((beh n = false ∨ beh (n + 1) = false) →
        (save_screenshot beh ts label n).1 = none))
    ∧ (∀ (beh : Beh) (ts : String) (ed : EmailData) (n n1 n2 n3 : Nat)
        (e1 e2 e3 : String) (t1 t2 t3 : List Event),
        sendAttempt beh ed n = (Except.error e1, n1, t1) →
        sendAttempt beh ed n1 = (Except.error e2, n2, t2) →
        sendAttempt beh ed n2 = (Except.error e3, n3, t3) →
        (send_email beh ts ed n).1 = Except.error e3) := by
  constructor
  · intro beh ts label n
    constructor
    · intro h1 h2
      simp [save_screenshot, h1, h2]
    · rintro (h | h)
      · simp [save_screenshot, h]
      · cases hb : beh n <;> simp [save_screenshot, h, hb]
  · intro beh ts ed n n1 n2 n3 e1 e2 e3 t1 t2 t3 h1 h2 h3
    rw [sendRetry_exhaustion beh ts ed n n1 n2 n3 e1 e2 e3 t1 t2 t3 h1 h2 h3]

/-- Witness for `save_screenshot_never_masks_error`: a successful capture
returns the path, a failed capture returns `None`, and an exhausted send
surfaces the attempt error. -/
theorem save_screenshot_never_masks_error_witness :
    (save_screenshot (fun _ => true) "TS" "L" 0).1
      = some ("screens/" ++ "TS" ++ "_" ++ "L" ++ ".png")
    ∧ (save_screenshot (fun _ => false) "TS" "L" 0).1 = none
    ∧ (send_email (fun _ => false) "TS" edOneRecipient 0).1
      = Except.error "Could not find compose button" :=
  ⟨(save_screenshot_never_masks_error.1 (fun _ => true) "TS" "L" 0).1 rfl rfl,
   (save_screenshot_never_masks_error.1 (fun _ => false) "TS" "L" 0).2
     (Or.inl rfl),
   save_screenshot_never_masks_error.2 (fun _ => false) "TS" edOneRecipient
     0 _ _ _ _ _ _ _ _ _ rfl rfl rfl⟩

end CoAssist
